import Mathlib

/-!
Shallow embedding of the `YAMLValidator` class of `yaml_validator.py`
(the validation core of the YAML-Validator repository; the Qt host shell
is out of scope).  The PyYAML parser (`yaml.safe_load`) is an external
library, so parsing is modelled abstractly: `validate_content` receives a
parse function `String → ParseOutcome` describing what `yaml.safe_load`
does on the given text.  The three possible outcomes mirror the source's
`try`/`except` arms: a parsed value tree, a `yaml.MarkedYAMLError` whose
`problem_mark` may be present or absent (`problem_mark` is `Optional` in
PyYAML), or a generic `yaml.YAMLError`.
-/

/-- A Python value produced by `yaml.safe_load`: `None`, `bool`, `int`,
`str`, `list`, `dict` (insertion-ordered pairs), or some other scalar
(e.g. `float`, dates), carrying its Python `str()` rendering and its
Python truthiness. -/
inductive YamlValue where
  | null : YamlValue
  | bool (b : Bool) : YamlValue
  | int (n : Int) : YamlValue
  | str (s : String) : YamlValue
  | seq (items : List YamlValue) : YamlValue
  | map (pairs : List (YamlValue × YamlValue)) : YamlValue
  | other (rendered : String) (truthy : Bool) : YamlValue

/-- The single-quote character, used by the source's warning messages. -/
def apos : String := (Char.ofNat 39).toString

mutual

/-- Python `str()` of a value, as used by the source's f-strings
(`f"{key}"`, `f"{path}"`). -/
def pyStr : YamlValue → String
  | .null => "None"
  | .bool true => "True"
  | .bool false => "False"
  | .int n => toString n
  | .str s => s
  | .seq items => "[" ++ pyReprList items ++ "]"
  | .map pairs => "\x7b" ++ pyReprPairs pairs ++ "\x7d"
  | .other rendered _ => rendered

/-- Python `repr()` of a value, used by `str()` on container elements.
(For strings we always render the single-quoted form; containers can
never be `dict` keys in a `safe_load` result, so the container branches
of `pyStr`/`pyRepr` are unreachable from real parses.) -/
def pyRepr : YamlValue → String
  | .null => "None"
  | .bool true => "True"
  | .bool false => "False"
  | .int n => toString n
  | .str s => apos ++ s ++ apos
  | .seq items => "[" ++ pyReprList items ++ "]"
  | .map pairs => "\x7b" ++ pyReprPairs pairs ++ "\x7d"
  | .other rendered _ => rendered

/-- Comma-separated `repr`s of list elements. -/
def pyReprList : List YamlValue → String
  | [] => ""
  | [v] => pyRepr v
  | v :: rest => pyRepr v ++ ", " ++ pyReprList rest

/-- Comma-separated `repr(k): repr(v)` renderings of dict pairs. -/
def pyReprPairs : List (YamlValue × YamlValue) → String
  | [] => ""
  | [(k, v)] => pyRepr k ++ ": " ++ pyRepr v
  | (k, v) :: rest => pyRepr k ++ ": " ++ pyRepr v ++ ", " ++ pyReprPairs rest

end

/-- Python truthiness (`if path:` in the source). -/
def pyTruthy : YamlValue → Bool
  | .null => false
  | .bool b => b
  | .int n => n != 0
  | .str s => s != ""
  | .seq items => !items.isEmpty
  | .map pairs => !pairs.isEmpty
  | .other _ truthy => truthy

/-- `isinstance(key, str)`. -/
def isStr : YamlValue → Bool
  | .str _ => true
  | _ => false

/-- `value is None`. -/
def isNone : YamlValue → Bool
  | .null => true
  | _ => false

/-- Outcome of `yaml.safe_load(content)`: a value, a
`yaml.MarkedYAMLError` (with 0-based `problem_mark.line` if the mark is
present) and its `problem` rendering, or a generic `yaml.YAMLError` with
its `str()` rendering. -/
inductive ParseOutcome where
  | ok (data : YamlValue) : ParseOutcome
  | markedErr (mark : Option Nat) (problem : String) : ParseOutcome
  | genericErr (msg : String) : ParseOutcome

/-- A Python exception escaping `validate_content` (the `AttributeError`
raised by `e.problem_mark.line` when `problem_mark` is `None`). -/
inductive PyExc where
  | attributeError : PyExc
deriving DecidableEq, Repr

/-- The validator's two accumulators (`self.errors`, `self.warnings`). -/
structure ValidatorState where
  errors : List String
  warnings : List String
deriving DecidableEq, Repr

/-- Message of source line 28: the empty-document warning. -/
def emptyDocWarning : String := "警告: 空のYAMLドキュメントです"

/-- Message of source line 47 (`path` already rendered by the f-string). -/
def nonStringKeyWarning (key : YamlValue) (path : String) : String :=
  "警告: キー " ++ apos ++ pyStr key ++ apos ++ " は文字列ではありません (" ++ path ++ ")"

/-- Message of source line 50. -/
def valueEmptyWarning (key : YamlValue) (path : String) : String :=
  "警告: キー " ++ apos ++ pyStr key ++ apos ++ " の値が空です (" ++ path ++ ")"

/-- Message of source line 37, from the 0-based `problem_mark.line`. -/
def markedErrMsg (line : Nat) (problem : String) : String :=
  "YAML構文エラー (行 " ++ toString (line + 1) ++ "): " ++ problem

/-- Message of source line 40. -/
def genericErrMsg (msg : String) : String :=
  "YAML解析エラー: " ++ msg

/-- Message of source line 71. -/
def indentWarning (i : Nat) : String :=
  "警告: 行 " ++ toString i ++ " のインデントが一貫していません"

/-- Header of source line 76. -/
def errorsHeader : String := "エラー:"

/-- Header of source line 83. -/
def warningsHeader : String := "警告:"

/-- Message of source line 88. -/
def successMsg : String := "✅ 検証に成功しました！問題は見つかりませんでした。"

/-- Source line 52: `new_path = f"{path}.{key}" if path else key`.
Note Python truthiness of `path` and that the *raw key object* (not its
string rendering) becomes the path when `path` is falsy. -/
def childPath (path key : YamlValue) : YamlValue :=
  if pyTruthy path then .str (pyStr path ++ "." ++ pyStr key) else key

mutual

/-- `_validate_structure(data, path)` (source lines 43-58), with the
append-only mutation of `self.warnings` threaded as the `ws` argument.
`path` is a Python value: a string normally, but the raw key object
after descending through a falsy path (see `childPath`). -/
def validate_structure (data : YamlValue) (path : YamlValue) (ws : List String) : List String :=
  match data with
  | .map pairs => validatePairs pairs path ws
  | .seq items => validateItems items path 0 ws
  | _ => ws

/-- The `for key, value in data.items()` loop of `_validate_structure`. -/
def validatePairs (pairs : List (YamlValue × YamlValue)) (path : YamlValue) (ws : List String) : List String :=
  match pairs with
  | [] => ws
  | (key, value) :: rest =>
    let ws := if isStr key then ws else ws ++ [nonStringKeyWarning key (pyStr path)]
    let ws := if isNone value then ws ++ [valueEmptyWarning key (pyStr path)] else ws
    let ws := validate_structure value (childPath path key) ws
    validatePairs rest path ws

/-- The `for i, item in enumerate(data)` loop of `_validate_structure`. -/
def validateItems (items : List YamlValue) (path : YamlValue) (i : Nat) (ws : List String) : List String :=
  match items with
  | [] => ws
  | item :: rest =>
    let ws := validate_structure item (.str (pyStr path ++ "[" ++ toString i ++ "]")) ws
    validateItems rest path (i + 1) ws

end

/-- Python `str.isspace` characters relevant to lines already split on
newline (space, tab, CR, LF, vertical tab, form feed). -/
def pyIsSpace (c : Char) : Bool :=
  c == ' ' || c == Char.ofNat 9 || c == Char.ofNat 10 || c == Char.ofNat 13 ||
  c == Char.ofNat 11 || c == Char.ofNat 12

/-- Python `line.lstrip()`. -/
def pyLstrip (s : String) : String :=
  String.mk (s.toList.dropWhile pyIsSpace)

/-- Python `line.strip()`. -/
def pyStrip (s : String) : String :=
  String.mk (((s.toList.dropWhile pyIsSpace).reverse.dropWhile pyIsSpace).reverse)

/-- Python `s.startswith('#')`. -/
def pyStartsWithHash (s : String) : Bool :=
  match s.toList with
  | c :: _ => c == '#'
  | [] => false

/-- Helper for `content.split('\n')`. -/
def pySplitNlAux : List Char → List Char → List String
  | [], acc => [String.mk acc.reverse]
  | c :: rest, acc =>
    if c == Char.ofNat 10 then String.mk acc.reverse :: pySplitNlAux rest []
    else pySplitNlAux rest (c :: acc)

/-- Python `content.split('\n')` (source line 61). -/
def pySplitNl (content : String) : List String :=
  pySplitNlAux content.toList []

/-- `indent = len(line) - len(line.lstrip())` (source line 66). -/
def lineIndent (line : String) : Nat :=
  line.length - (pyLstrip line).length

/-- The `line.strip() and not line.strip().startswith('#')` test of
source line 65: the line is neither blank after trimming nor a comment
(spec: a "remaining" line of the indentation scan). -/
def lineConsidered (line : String) : Bool :=
  (pyStrip line != "") && !pyStartsWithHash (pyStrip line)

/-- The `for i, line in enumerate(lines, 1)` loop of `_check_indentation`
(source lines 64-71), carrying the 1-based line number `i`, the
`spaces_pattern` variable, and the threaded `self.warnings`. -/
def checkIndentGo : List String → Nat → Option Nat → List String → List String
  | [], _, _, ws => ws
  | line :: rest, i, spaces_pattern, ws =>
    if lineConsidered line then
      let indent := lineIndent line
      if 0 < indent then
        match spaces_pattern with
        | none => checkIndentGo rest (i + 1) (some indent) ws
        | some p =>
          if indent % p ≠ 0 then checkIndentGo rest (i + 1) (some p) (ws ++ [indentWarning i])
          else checkIndentGo rest (i + 1) (some p) ws
      else checkIndentGo rest (i + 1) spaces_pattern ws
    else checkIndentGo rest (i + 1) spaces_pattern ws

/-- `_check_indentation(content)` (source lines 60-71). -/
def check_indentation (content : String) (ws : List String) : List String :=
  checkIndentGo (pySplitNl content) 1 none ws

/-- `validate_content(content)` (source lines 20-41).  `parse` models the
external `yaml.safe_load`; `st` is the validator's accumulator state at
entry, overwritten by the reset of lines 21-22.  The result is `.error`
when a Python exception escapes the method (see `PyExc`), else the
returned boolean together with the final accumulator state. -/
def validate_content (parse : String → ParseOutcome) (st : ValidatorState) (content : String) :
    Except PyExc (Bool × ValidatorState) :=
  let errors : List String := []
  let warnings : List String := []
  match parse content with
  | .ok .null =>
    .ok (true, ⟨errors, warnings ++ [emptyDocWarning]⟩)
  | .ok data =>
    let warnings := validate_structure data (.str "") warnings
    let warnings := check_indentation content warnings
    .ok (errors.length == 0, ⟨errors, warnings⟩)
  | .markedErr (some line) problem =>
    .ok (false, ⟨errors ++ [markedErrMsg line problem], warnings⟩)
  | .markedErr none _ =>
    .error PyExc.attributeError
  | .genericErr msg =>
    .ok (false, ⟨errors ++ [genericErrMsg msg], warnings⟩)

/-- `get_report()` (source lines 73-90). -/
def get_report (st : ValidatorState) : String :=
  let report : List String := []
  let report := if st.errors.isEmpty then report
    else report ++ [errorsHeader] ++ st.errors.map (fun e => "- " ++ e)
  let report := if st.warnings.isEmpty then report
    else (if report.isEmpty then report else report ++ [""]) ++
      [warningsHeader] ++ st.warnings.map (fun w => "- " ++ w)
  let report := if report.isEmpty then [successMsg] else report
  String.intercalate "\n" report

/-- A considered line with positive leading-whitespace count: exactly
the lines that can set `spaces_pattern` or be warned about. -/
def lineSetsUnit (line : String) : Bool :=
  lineConsidered line && decide (0 < lineIndent line)

/-- 1-based enumeration of lines (`enumerate(lines, 1)`). -/
def enumFrom : Nat → List String → List (Nat × String)
  | _, [] => []
  | i, line :: rest => (i, line) :: enumFrom (i + 1) rest

/-- Declarative description of the indentation warnings, following the
spec's words: the first considered line with positive indent sets the
unit; every later considered line whose positive indent is not an exact
multiple of that unit is warned about, in order. -/
def indentWarningsSpec (numbered : List (Nat × String)) : List String :=
  match numbered.dropWhile (fun q => !lineSetsUnit q.2) with
  | [] => []
  | first :: rest =>
    (rest.filter (fun q => lineSetsUnit q.2 &&
        decide (lineIndent q.2 % lineIndent first.2 ≠ 0))).map
      (fun q => indentWarning q.1)

/-- The `spaces_pattern` value established for the document, per the
spec's words: the indent of the first considered line with positive
indent, if any. -/
def spacesPatternSpec (numbered : List (Nat × String)) : Option Nat :=
  (numbered.find? (fun q => lineSetsUnit q.2)).map (fun q => lineIndent q.2)

mutual

/-- Modelled from the spec: the structural scanner as the spec and claim
C5 word it, with the breadcrumb `path` always a *string* and the child
path always `{parentPath}.{key}` (no leading dot only when the parent
path is the empty root path).  Used to compare against the source's
`validate_structure`, whose path handling goes through Python
truthiness. -/
def specStructWarnings : YamlValue → String → List String
  | .map pairs, path => specStructPairs pairs path
  | .seq items, path => specStructItems items path 0
  | _, _ => []

/-- Mapping-pair part of `specStructWarnings`. -/
def specStructPairs : List (YamlValue × YamlValue) → String → List String
  | [], _ => []
  | (key, value) :: rest, path =>
    (if isStr key then [] else [nonStringKeyWarning key path]) ++
    (if isNone value then [valueEmptyWarning key path] else []) ++
    specStructWarnings value (if path = "" then pyStr key else path ++ "." ++ pyStr key) ++
    specStructPairs rest path

/-- Sequence part of `specStructWarnings`. -/
def specStructItems : List YamlValue → String → Nat → List String
  | [], _, _ => []
  | item :: rest, path, i =>
    specStructWarnings item (path ++ "[" ++ toString i ++ "]") ++
    specStructItems rest path (i + 1)

end

/-- Declarative description of `get_report`'s lines, following the
spec's words: errors block, a blank separator only when both blocks are
present, warnings block, or a lone success message. -/
def reportLinesSpec (errors warnings : List String) : List String :=
  if errors = [] ∧ warnings = [] then [successMsg]
  else
    (if errors = [] then [] else errorsHeader :: errors.map (fun e => "- " ++ e)) ++
    (if errors ≠ [] ∧ warnings ≠ [] then [""] else []) ++
    (if warnings = [] then [] else warningsHeader :: warnings.map (fun w => "- " ++ w))


mutual

/-- The warnings emitted by one `_validate_structure(data, path)` call,
in emission order (generative form of the threaded `validate_structure`;
the equivalence is `validate_structure_eq`). -/
def structWarnings : YamlValue → YamlValue → List String
  | .map pairs, path => pairsWarnings pairs path
  | .seq items, path => itemsWarnings items path 0
  | _, _ => []

/-- Warnings emitted by the mapping-pair loop, in emission order. -/
def pairsWarnings : List (YamlValue × YamlValue) → YamlValue → List String
  | [], _ => []
  | (key, value) :: rest, path =>
    (if isStr key then [] else [nonStringKeyWarning key (pyStr path)]) ++
    (if isNone value then [valueEmptyWarning key (pyStr path)] else []) ++
    structWarnings value (childPath path key) ++
    pairsWarnings rest path

/-- Warnings emitted by the sequence loop, in emission order. -/
def itemsWarnings : List YamlValue → YamlValue → Nat → List String
  | [], _, _ => []
  | item :: rest, path, i =>
    structWarnings item (.str (pyStr path ++ "[" ++ toString i ++ "]")) ++
    itemsWarnings rest path (i + 1)

end

mutual

/-- The threaded structural scanner equals its input followed by the
emitted warnings: it only ever appends. -/
theorem validate_structure_eq (data path : YamlValue) (ws : List String) :
    validate_structure data path ws = ws ++ structWarnings data path := by
  match data with
  | .map pairs =>
    simp only [validate_structure, structWarnings]
    exact validatePairs_eq pairs path ws
  | .seq items =>
    simp only [validate_structure, structWarnings]
    exact validateItems_eq items path 0 ws
  | .null | .bool _ | .int _ | .str _ | .other _ _ =>
    simp [validate_structure, structWarnings]

/-- Threaded mapping-pair loop versus its emitted warnings. -/
theorem validatePairs_eq (pairs : List (YamlValue × YamlValue)) (path : YamlValue)
    (ws : List String) :
    validatePairs pairs path ws = ws ++ pairsWarnings pairs path := by
  match pairs with
  | [] => simp [validatePairs, pairsWarnings]
  | (key, value) :: rest =>
    simp only [validatePairs, pairsWarnings]
    rw [validate_structure_eq value (childPath path key), validatePairs_eq rest path]
    cases hk : isStr key <;> cases hv : isNone value <;> simp [hk, hv]

/-- Threaded sequence loop versus its emitted warnings. -/
theorem validateItems_eq (items : List YamlValue) (path : YamlValue) (i : Nat)
    (ws : List String) :
    validateItems items path i ws = ws ++ itemsWarnings items path i := by
  match items with
  | [] => simp [validateItems, itemsWarnings]
  | item :: rest =>
    simp only [validateItems, itemsWarnings]
    rw [validate_structure_eq item, validateItems_eq rest path (i + 1)]
    simp

end

/-- Once `spaces_pattern` is set to `p`, the rest of the scan is a pure
filter: it warns exactly on considered lines whose positive indent is
not a multiple of `p`, in order. -/
theorem checkIndentGo_some_eq : ∀ (ls : List String) (i p : Nat) (ws : List String),
    checkIndentGo ls i (some p) ws =
      ws ++ ((enumFrom i ls).filter
          (fun q => lineSetsUnit q.2 && decide (lineIndent q.2 % p ≠ 0))).map
        (fun q => indentWarning q.1) := by
  intro ls
  induction ls with
  | nil => intro i p ws; simp [checkIndentGo, enumFrom]
  | cons line rest ih =>
    intro i p ws
    simp only [checkIndentGo, enumFrom]
    cases hc : lineConsidered line with
    | false =>
      have hset : lineSetsUnit line = false := by simp [lineSetsUnit, hc]
      rw [if_neg (by simp [hc])]
      rw [ih]
      simp [List.filter_cons, hset]
    | true =>
      rw [if_pos (by simp [hc])]
      by_cases hi : 0 < lineIndent line
      · have hset : lineSetsUnit line = true := by simp [lineSetsUnit, hc, hi]
        rw [if_pos hi]
        by_cases hm : lineIndent line % p ≠ 0
        · rw [if_pos hm, ih]
          simp [List.filter_cons, hset, hm]
        · rw [if_neg hm, ih]
          simp [List.filter_cons, hset, hm]
      · have hset : lineSetsUnit line = false := by simp [lineSetsUnit, hi]
        rw [if_neg hi, ih]
        simp [List.filter_cons, hset]

/-- The full scan, started with `spaces_pattern` unset, produces exactly
the declaratively described warnings, appended to the incoming list. -/
theorem checkIndentGo_none_eq : ∀ (ls : List String) (i : Nat) (ws : List String),
    checkIndentGo ls i none ws = ws ++ indentWarningsSpec (enumFrom i ls) := by
  intro ls
  induction ls with
  | nil => intro i ws; simp [checkIndentGo, enumFrom, indentWarningsSpec]
  | cons line rest ih =>
    intro i ws
    simp only [checkIndentGo, enumFrom]
    cases hc : lineConsidered line with
    | false =>
      have hset : lineSetsUnit line = false := by simp [lineSetsUnit, hc]
      rw [if_neg (by simp [hc])]
      rw [ih]
      simp [indentWarningsSpec, List.dropWhile_cons, hset]
    | true =>
      rw [if_pos (by simp [hc])]
      by_cases hi : 0 < lineIndent line
      · have hset : lineSetsUnit line = true := by simp [lineSetsUnit, hc, hi]
        rw [if_pos hi, checkIndentGo_some_eq]
        simp [indentWarningsSpec, List.dropWhile_cons, hset]
      · have hset : lineSetsUnit line = false := by simp [lineSetsUnit, hi]
        rw [if_neg hi, ih]
        simp [indentWarningsSpec, List.dropWhile_cons, hset]

/-- `_check_indentation` appends exactly the declaratively described
warnings to the warnings accumulated so far. -/
theorem check_indentation_eq (content : String) (ws : List String) :
    check_indentation content ws = ws ++ indentWarningsSpec (enumFrom 1 (pySplitNl content)) := by
  simp [check_indentation, checkIndentGo_none_eq]

/-- C1: for every input on which `validate_content` returns normally, the
returned boolean is `true` if and only if the `errors` accumulator is
empty at return; warnings (structural, indentation, or empty-document)
never cause a `false` result. -/
theorem validate_content_true_iff_errors_empty
    (parse : String → ParseOutcome) (st : ValidatorState) (content : String)
    (b : Bool) (st' : ValidatorState)
    (h : validate_content parse st content = .ok (b, st')) :
    b = true ↔ st'.errors = [] := by
  cases hp : parse content with
  | ok data =>
    cases data <;> simp [validate_content, hp] at h <;>
      obtain ⟨hb, hs⟩ := h <;> subst hb <;> subst hs <;> simp
  | markedErr mark problem =>
    cases mark with
    | some l =>
      simp [validate_content, hp] at h
      obtain ⟨hb, hs⟩ := h
      subst hb; subst hs; simp
    | none => simp [validate_content, hp] at h
  | genericErr msg =>
    simp [validate_content, hp] at h
    obtain ⟨hb, hs⟩ := h
    subst hb; subst hs; simp

/-- Witness for C1: a generic parse error yields `false` and a singleton
`errors` list, and the equivalence holds there. -/
theorem validate_content_true_iff_errors_empty_witness :
    (false = true ↔ [genericErrMsg "boom"] = ([] : List String)) :=
  validate_content_true_iff_errors_empty (fun _ => .genericErr "boom") ⟨["s"], ["t"]⟩ "x"
    false ⟨[genericErrMsg "boom"], []⟩ rfl

/-- C2: a position-aware parse error with 0-based reported line `l`
yields exactly one `errors` entry built from the 1-based line `l + 1`
and the problem text, with `false` returned, no scans run and `warnings`
left empty; a generic parse error yields the generic message likewise. -/
theorem parse_error_paths
    (parse : String → ParseOutcome) (st : ValidatorState) (content : String) :
    (∀ l problem, parse content = .markedErr (some l) problem →
      validate_content parse st content = .ok (false, ⟨[markedErrMsg l problem], []⟩) ∧
      markedErrMsg l problem = "YAML構文エラー (行 " ++ toString (l + 1) ++ "): " ++ problem) ∧
    (∀ msg, parse content = .genericErr msg →
      validate_content parse st content = .ok (false, ⟨[genericErrMsg msg], []⟩) ∧
      genericErrMsg msg = "YAML解析エラー: " ++ msg) := by
  constructor
  · intro l problem hp
    exact ⟨by simp [validate_content, hp], rfl⟩
  · intro msg hp
    exact ⟨by simp [validate_content, hp], rfl⟩

/-- Witness for C2: a marked error at 0-based line 4 is reported as
1-based line 5, discarding any stale accumulator contents. -/
theorem parse_error_paths_witness :
    validate_content (fun _ => .markedErr (some 4) "mapping values are not allowed here")
        ⟨["stale"], ["stale"]⟩ "k" =
      .ok (false, ⟨[markedErrMsg 4 "mapping values are not allowed here"], []⟩) ∧
    markedErrMsg 4 "mapping values are not allowed here" =
      "YAML構文エラー (行 " ++ toString (4 + 1) ++ "): " ++ "mapping values are not allowed here" :=
  (parse_error_paths (fun _ => .markedErr (some 4) "mapping values are not allowed here")
    ⟨["stale"], ["stale"]⟩ "k").1 4 "mapping values are not allowed here" rfl

/-- C3 (code bug): when the marked error carries no position mark, the
source's handler evaluates `e.problem_mark.line` on `None` and the
resulting `AttributeError` escapes `validate_content` instead of being
converted into an `errors` entry, contrary to the propagation policy. -/
theorem markless_marked_error_escapes :
    validate_content (fun _ => .markedErr none "expected the node content") ⟨[], []⟩ "x" =
      .error PyExc.attributeError := rfl

/-- C4: a document that parses to the null value produces exactly the
empty-document warning, leaves `errors` empty, returns `true`, and runs
neither scanner (the final state is exactly the reset state plus that
one warning). -/
theorem null_document_empty_warning
    (parse : String → ParseOutcome) (st : ValidatorState) (content : String)
    (h : parse content = .ok .null) :
    validate_content parse st content = .ok (true, ⟨[], [emptyDocWarning]⟩) := by
  simp [validate_content, h]

/-- Witness for C4 at the empty document. -/
theorem null_document_empty_warning_witness :
    validate_content (fun _ => .ok .null) ⟨["old"], ["old"]⟩ "" =
      .ok (true, ⟨[], [emptyDocWarning]⟩) :=
  null_document_empty_warning (fun _ => .ok .null) ⟨["old"], ["old"]⟩ "" rfl

/-- C9: `validate_content` resets both accumulators at entry, so its
entire result (boolean, accumulators, and hence any report) is
independent of the validator's prior state; two calls on the same input
agree whatever states they start from. -/
theorem validate_content_resets_state
    (parse : String → ParseOutcome) (content : String) (st₁ st₂ : ValidatorState) :
    validate_content parse st₁ content = validate_content parse st₂ content := rfl

/-- C5 counterexample: for the mapping `{None: {"c": {"d": None}}}` the
source walk reaches the pair `("d", None)` with path `"c"`, not the
claimed `"None.c"`: `new_path = f"{path}.{key}" if path else key` tests
Python truthiness, and the falsy key object `None` propagated as the
path drops the prefix one level deeper. -/
theorem structure_path_truthiness_counterexample :
    validate_structure (.map [(.null, .map [(.str "c", .map [(.str "d", .null)])])])
        (.str "") [] =
      [nonStringKeyWarning .null "", valueEmptyWarning (.str "d") "c"] ∧
    specStructWarnings (.map [(.null, .map [(.str "c", .map [(.str "d", .null)])])]) "" =
      [nonStringKeyWarning .null "", valueEmptyWarning (.str "d") "None.c"] ∧
    valueEmptyWarning (.str "d") "c" ≠ valueEmptyWarning (.str "d") "None.c" := by
  exact ⟨by decide, by decide, by decide⟩

/-- C5 (amended): per mapping pair, a non-string key and a null value
are warned about with the parent path's rendering, then the walk
descends into the value with child path `p.key` when the parent path
object is truthy and with the bare key object when it is falsy (the
root's empty path, and falsy keys such as `None`/`False`/`0` propagated
as paths); sequence elements use `p[i]`; the scanner only appends to
the warnings, never touching errors. -/
theorem structure_scan_decomposition :
    (∀ key value rest path ws,
      validatePairs ((key, value) :: rest) path ws =
        ws ++ (if isStr key then [] else [nonStringKeyWarning key (pyStr path)]) ++
        (if isNone value then [valueEmptyWarning key (pyStr path)] else []) ++
        validate_structure value (childPath path key) [] ++
        validatePairs rest path []) ∧
    (∀ item rest path i ws,
      validateItems (item :: rest) path i ws =
        ws ++ validate_structure item (.str (pyStr path ++ "[" ++ toString i ++ "]")) [] ++
        validateItems rest path (i + 1) []) ∧
    (∀ data path ws, validate_structure data path ws = ws ++ validate_structure data path []) := by
  refine ⟨?_, ?_, ?_⟩
  · intro key value rest path ws
    rw [validatePairs_eq, validatePairs_eq rest path,
      validate_structure_eq value (childPath path key) []]
    simp [pairsWarnings]
  · intro item rest path i ws
    rw [validateItems_eq, validateItems_eq rest path (i + 1),
      validate_structure_eq item (.str (pyStr path ++ "[" ++ toString i ++ "]")) []]
    simp [itemsWarnings]
  · intro data path ws
    rw [validate_structure_eq, validate_structure_eq data path []]
    simp

/-- C6: the indentation scan skips blank-after-trim and comment lines,
lets the first remaining line with positive indent set the unit for the
whole document, and warns on every later remaining line whose positive
indent is not an exact multiple of it; on the 0/2/3-indent example the
unit is 2 and line 3 alone is warned about. -/
theorem indentation_scan_spec :
    (∀ content ws, check_indentation content ws =
      ws ++ indentWarningsSpec (enumFrom 1 (pySplitNl content))) ∧
    spacesPatternSpec (enumFrom 1 (pySplitNl "key: value\n  a: 1\n   b: 2")) = some 2 ∧
    check_indentation "key: value\n  a: 1\n   b: 2" [] = [indentWarning 3] :=
  ⟨check_indentation_eq, by decide, by decide⟩

/-- C7: on a successfully parsed non-null document the final warnings
are the structural warnings followed by the indentation warnings; the
structural walk emits a pair's own warnings, then its value's subtree,
then the later siblings (depth-first, key-insertion order); on the
claimed example exactly the two expected warnings appear in order. -/
theorem warnings_order_struct_then_indent :
    (∀ (parse : String → ParseOutcome) (st : ValidatorState) (content : String)
        (data : YamlValue), parse content = .ok data → data ≠ .null →
      validate_content parse st content =
        .ok (true, ⟨[], validate_structure data (.str "") [] ++ check_indentation content []⟩)) ∧
    (∀ key value rest path,
      validate_structure (.map ((key, value) :: rest)) path [] =
        (if isStr key then [] else [nonStringKeyWarning key (pyStr path)]) ++
        (if isNone value then [valueEmptyWarning key (pyStr path)] else []) ++
        validate_structure value (childPath path key) [] ++
        validate_structure (.map rest) path []) ∧
    validate_content
        (fun _ => .ok (.map [(.str "a", .null), (.str "b", .map [(.str "c", .null)])]))
        ⟨[], []⟩ "a:\nb:\n  c:\n" =
      .ok (true, ⟨[], [valueEmptyWarning (.str "a") "", valueEmptyWarning (.str "c") "b"]⟩) := by
  refine ⟨?_, ?_, by rfl⟩
  · intro parse st content data hp hn
    cases data with
    | null => exact absurd rfl hn
    | bool b =>
      simp only [validate_content, hp]
      rw [check_indentation_eq, check_indentation_eq]
      simp
    | int n =>
      simp only [validate_content, hp]
      rw [check_indentation_eq, check_indentation_eq]
      simp
    | str s =>
      simp only [validate_content, hp]
      rw [check_indentation_eq, check_indentation_eq]
      simp
    | seq items =>
      simp only [validate_content, hp]
      rw [check_indentation_eq, check_indentation_eq]
      simp
    | map pairs =>
      simp only [validate_content, hp]
      rw [check_indentation_eq, check_indentation_eq]
      simp
    | other r t =>
      simp only [validate_content, hp]
      rw [check_indentation_eq, check_indentation_eq]
      simp
  · intro key value rest path
    simp only [validate_structure]
    rw [validatePairs_eq, validatePairs_eq rest path,
      validate_structure_eq value (childPath path key) []]
    simp [pairsWarnings]

/-- Witness for C7: a non-null scalar document with stale accumulators. -/
theorem warnings_order_struct_then_indent_witness :
    validate_content (fun _ => .ok (.int 5)) ⟨["s"], ["t"]⟩ "5" =
      .ok (true, ⟨[], validate_structure (.int 5) (.str "") [] ++ check_indentation "5" []⟩) :=
  warnings_order_struct_then_indent.1 (fun _ => .ok (.int 5)) ⟨["s"], ["t"]⟩ "5" (.int 5) rfl
    (fun h => YamlValue.noConfusion h)

/-- C10: whenever the parse succeeds with a non-null tree, the scanners
only add warnings, `errors` stays empty, and `validate_content` returns
`true`: no parseable document is rejected. -/
theorem nonnull_parse_returns_true
    (parse : String → ParseOutcome) (st : ValidatorState) (content : String)
    (data : YamlValue) (hp : parse content = .ok data) (hn : data ≠ .null) :
    ∃ st' : ValidatorState, validate_content parse st content = .ok (true, st') ∧
      st'.errors = [] := by
  have h : validate_content parse st content =
      .ok (true, ⟨[], check_indentation content (validate_structure data (.str "") [])⟩) := by
    cases data <;> first | exact absurd rfl hn | simp [validate_content, hp]
  exact ⟨_, h, rfl⟩

/-- Witness for C10 at a one-element sequence document. -/
theorem nonnull_parse_returns_true_witness :
    ∃ st' : ValidatorState,
      validate_content (fun _ => .ok (.seq [.str "x"])) ⟨["s"], []⟩ "- x" = .ok (true, st') ∧
      st'.errors = [] :=
  nonnull_parse_returns_true (fun _ => .ok (.seq [.str "x"])) ⟨["s"], []⟩ "- x" (.seq [.str "x"])
    rfl (fun h => YamlValue.noConfusion h)

/-- A `"- "`-prefixed report line is never the empty string. -/
theorem dash_ne_empty (s : String) : ("- " ++ s) ≠ "" := by
  intro h
  have h2 := congrArg String.data h
  rw [String.data_append] at h2
  have e1 : ("- " : String).data = ['-', ' '] := rfl
  have e2 : ("" : String).data = [] := rfl
  rw [e1, e2] at h2
  simp at h2

/-- The empty string is not among the `"- {message}"` lines. -/
theorem empty_not_mem_dash (l : List String) : "" ∉ l.map (fun e => "- " ++ e) := by
  intro h
  obtain ⟨a, _, ha⟩ := List.mem_map.mp h
  exact dash_ne_empty a ha

/-- C8: `get_report` is a pure function of the accumulators (so two
calls after one validation agree trivially) and returns the
newline-join, without trailing newline, of: the errors block when
errors exist, a blank separator exactly when both blocks exist, the
warnings block when warnings exist, and a lone success line when both
are empty. -/
theorem get_report_spec (st : ValidatorState) :
    get_report st = String.intercalate "\n" (reportLinesSpec st.errors st.warnings) ∧
    ("" ∈ reportLinesSpec st.errors st.warnings ↔ st.errors ≠ [] ∧ st.warnings ≠ []) := by
  obtain ⟨errors, warnings⟩ := st
  constructor
  · rcases errors with _ | ⟨e, es⟩ <;> rcases warnings with _ | ⟨w, ws⟩ <;>
      simp [get_report, reportLinesSpec]
  · rcases errors with _ | ⟨e, es⟩ <;> rcases warnings with _ | ⟨w, ws⟩ <;>
      simp [reportLinesSpec, successMsg, errorsHeader, warningsHeader, empty_not_mem_dash] <;>
      exact ⟨fun h => dash_ne_empty _ h.symm, fun x _ h => dash_ne_empty x h⟩
